import Mathlib

/-!
# Verification development for the user controller of the MERN backend

Shallow embedding of `src/controllers/user.controller.js` and
`src/utils/cloudinary.js`.

* A request handler `async (req, res) => ...` becomes a function from the
  store state and the request to a `Completion` (the response that was sent, or
  the error that was thrown to the async-handler wrapper) and the store state
  after the call.
* The fields of `req.body` and the cookie are JavaScript values (`JsVal`): the
  body parsers deliver strings, numbers, booleans, `null`, arrays and objects.
  Elsewhere a value that can only be a string or `undefined`/`null` is an
  `Option`, with `none` for `undefined`/`null`.
* The user schema (`models/user.model.js`), the ORM's casts, the JWT library,
  the cloud uploader, the runtime's Unicode tables and the global scope are not
  part of the controller: the instance methods of a user document, the casts,
  `jwt.verify`, the upload call, the lowering of non-ASCII text and the binding
  of the free identifier `REFRESH_TOKEN_SECRET` are fields of `Env`.
-/

namespace MernBackend

/-! ## JavaScript values -/

/-- The JavaScript values the controllers test for truthiness or store in a
document. `object` is an array or a plain object, whose content the controller
never reads; a `promise` is a fulfilled promise carrying its value. -/
inductive JsVal
  | undefined
  | null
  | bool (b : Bool)
  | num (n : Nat)
  | str (s : String)
  | object
  | promise (settled : JsVal)
  deriving DecidableEq, Repr

/-- JavaScript truthiness (`!v` is `!(truthy v)`): an object, hence every
promise, is truthy whatever it resolves to. -/
def JsVal.truthy : JsVal → Bool
  | .undefined => false
  | .null => false
  | .bool b => b
  | .num n => n != 0
  | .str s => s != ""
  | .object => true
  | .promise _ => true

/-- The value of `await v`: a promise is unwrapped, any other value is itself. -/
def JsVal.awaited : JsVal → JsVal
  | .promise v => v
  | v => v

/-- Truthiness of an optional string: `undefined` and `""` are falsy. -/
def truthyStr : Option String → Bool
  | none => false
  | some s => s != ""

/-- The JavaScript `a || b` on optional strings. -/
def jsOr (a b : Option String) : Option String :=
  if truthyStr a then a else b

/-- The JavaScript `a || b` on values. -/
def JsVal.or (a b : JsVal) : JsVal :=
  if a.truthy then a else b

/-- The code points `String.prototype.trim` strips (WhiteSpace and
LineTerminator of ECMAScript). -/
def isJsWhiteSpace (c : Char) : Bool :=
  c.toNat ∈ [9, 10, 11, 12, 13, 32, 160, 5760, 8232, 8233, 8239, 8287, 12288, 65279]
    || (8192 ≤ c.toNat && c.toNat ≤ 8202)

/-- `String.prototype.trim`. -/
def jsTrim (s : String) : String :=
  String.mk ((s.toList.dropWhile isJsWhiteSpace).reverse.dropWhile isJsWhiteSpace).reverse

/-- `String.prototype.toLowerCase`. A string of ASCII characters is lowered
letter by letter; for any other string the result is the runtime's Unicode case
mapping, given as `unicodeLower`. -/
def toLowerCase (unicodeLower : String → String) (s : String) : String :=
  if s.toList.all (fun c => c.toNat < 128) then String.mk (s.toList.map Char.toLower)
  else unicodeLower s

/-- The test `field?.trim() === ""` of one field: `undefined` and `null` give
`undefined`, which is not `""`; a string is trimmed and compared; any other
value has no `trim` method, and calling it throws a `TypeError`. -/
def trimIsEmpty : JsVal → Option Bool
  | .undefined => some false
  | .null => some false
  | .str x => some (jsTrim x == "")
  | _ => none

/-! ## Errors and responses -/

/-- What a handler can throw. `apiError` is `new ApiError(statusCode, message)`;
the others are the runtime's and the libraries' own errors, which carry no
HTTP status. -/
inductive Thrown
  | apiError (statusCode : Nat) (message : String)
  | typeError (message : String)
  | referenceError (message : String)
  | jsonWebTokenError
  | validationError (path : String)
  | castError (path : String)
  | duplicateKeyError (path : String)
  | hookError
  deriving DecidableEq, Repr

/-- `fields.some((field) => field?.trim() === "")`: the fields are tested in
order, up to the first blank one; a field without a `trim` method met on the way
throws. -/
def someBlank : List JsVal → Except Thrown Bool
  | [] => .ok false
  | field :: rest =>
    match trimIsEmpty field with
    | none => .error (.typeError "field?.trim is not a function")
    | some true => .ok true
    | some false => someBlank rest

/-- A JSON object: its keys in order, with their values. -/
abbrev Doc := List (String × JsVal)

/-- Whether the object has the key. -/
def Doc.hasKey (d : Doc) (key : String) : Bool :=
  d.any (fun kv => kv.1 == key)

/-- The `_id` of an object, when it has a numeric one. -/
def Doc.id (d : Doc) : Option Nat :=
  match d.lookup "_id" with
  | some (.num n) => some n
  | _ => none

/-- The `data` argument of `new ApiResponse(statusCode, message, data)` as the
controllers build it: `{}`, a user object (or `null`), or the login payload
`{ user, accessToken, refreshToken }`. -/
inductive Data
  | empty
  | user (doc : Option Doc)
  | session (user : Option Doc) (accessToken refreshToken : String)
  deriving DecidableEq, Repr

/-- The success envelope `new ApiResponse(statusCode, message, data)`. -/
structure ApiResponse where
  statusCode : Nat
  message : String
  data : Data
  deriving DecidableEq, Repr

/-- The options object passed to `res.cookie` / `res.clearCookie`. -/
structure CookieOptions where
  httpOnly : Bool
  secure : Bool
  deriving DecidableEq, Repr

/-- One `Set-Cookie` effect on the response. -/
inductive CookieOp
  | set (name value : String) (options : CookieOptions)
  | clear (name : String) (options : CookieOptions)
  deriving DecidableEq, Repr

/-- The Express response object as the controllers use it: HTTP status, the
cookie operations in call order, and the JSON body once `json` was called. -/
structure Res where
  statusCode : Nat
  cookies : List CookieOp
  body : Option ApiResponse
  deriving DecidableEq, Repr

/-- The fresh response object handed to a handler (Express defaults to 200). -/
def Res.fresh : Res := { statusCode := 200, cookies := [], body := none }

/-- The methods of the Express response object that the controllers chain. -/
def Res.methods : List String := ["status", "cookie", "clearCookie", "json"]

/-- The method call `res.name(...)` in a chain: calling a property the response
object does not have throws a `TypeError`; otherwise `f` is the method's
effect. -/
def Res.call (name : String) (f : Res → Res) (r : Except Thrown Res) : Except Thrown Res :=
  match r with
  | .error e => .error e
  | .ok res =>
    if name ∈ Res.methods then .ok (f res)
    else .error (.typeError ("res." ++ name ++ " is not a function"))

/-- Effect of `res.status(code)`. -/
def Res.status (code : Nat) (res : Res) : Res := { res with statusCode := code }

/-- Effect of `res.cookie(name, value, options)`. -/
def Res.cookie (name value : String) (options : CookieOptions) (res : Res) : Res :=
  { res with cookies := res.cookies ++ [.set name value options] }

/-- Effect of `res.clearCookie(name, options)`. -/
def Res.clearCookie (name : String) (options : CookieOptions) (res : Res) : Res :=
  { res with cookies := res.cookies ++ [.clear name options] }

/-- Effect of `res.json(body)`. -/
def Res.json (body : ApiResponse) (res : Res) : Res := { res with body := some body }

/-- How a handler ends: it sent a response, or it threw (the async-handler
wrapper forwards the thrown error to the error responder). -/
inductive Completion
  | responded (res : Res)
  | threw (error : Thrown)
  deriving DecidableEq, Repr

/-- The end of a handler from the result of its response chain. -/
def Completion.ofExcept : Except Thrown Res → Completion
  | .ok res => .responded res
  | .error e => .threw e

/-- The cookie operations on the response when the handler is done. Every
`throw` of the controller comes before the first call on `res`, so a handler
that threw has performed none. -/
def Completion.cookies : Completion → List CookieOp
  | .responded res => res.cookies
  | .threw _ => []

/-- Whether the handler failed with `new ApiError(code, ...)`. -/
def Completion.failsWith (c : Completion) (code : Nat) : Bool :=
  match c with
  | .threw (.apiError sc _) => sc == code
  | _ => false

/-! ## The user collection -/

/-- Modelled from the spec: the user schema `models/user.model.js` is not among
the sources. A stored user document has the fields of the data model: unique
username and email, hashed password, full name, avatar URL, cover-image URL and
an optional refresh token (timestamps are left out). -/
structure UserDoc where
  _id : Nat
  username : String
  email : String
  fullName : String
  avatar : String
  coverImage : String
  password : String
  refreshToken : Option String
  deriving DecidableEq, Repr

/-- The stored document as a JSON object: every field it holds is a key. -/
def UserDoc.toObject (u : UserDoc) : Doc :=
  [("_id", .num u._id), ("username", .str u.username), ("email", .str u.email),
   ("fullName", .str u.fullName), ("avatar", .str u.avatar),
   ("coverImage", .str u.coverImage), ("password", .str u.password)]
  ++ (match u.refreshToken with
      | some t => [("refreshToken", .str t)]
      | none => [])

/-- The persistent state: the user collection and the local temp files that
were deleted. -/
structure State where
  users : List UserDoc
  unlinked : List String
  deriving DecidableEq, Repr

/-- A Mongoose query object. Building one does nothing to the store; it runs
only when it is awaited (`Query.exec`). -/
structure Query (α : Type) where
  exec : State → Except Thrown α × State

/-- Properties read off a query object that was not awaited: a `Query` has no
`refreshToken`, so the read gives `undefined`. -/
def Query.refreshToken {α : Type} (_ : Query α) : JsVal := .undefined

/-- A `Query` has no `_id` either. -/
def Query._id {α : Type} (_ : Query α) : Option Nat := none

/-- The document with the given `_id`, if any (`null` for an `undefined` id). -/
def lookupById (s : State) (id : Option Nat) : Option UserDoc :=
  match id with
  | none => none
  | some i => s.users.find? (fun u => u._id == i)

/-- `User.findById(id)`. -/
def User.findById (id : Option Nat) : Query (Option UserDoc) :=
  { exec := fun s => (.ok (lookupById s id), s) }

/-- Projection `.select("-a -b")` on a query for one user: the named keys are
dropped from the returned object (`excluded` lists the names after `-`). -/
def Query.select (q : Query (Option UserDoc)) (excluded : List String) : Query (Option Doc) :=
  { exec := fun s =>
      match q.exec s with
      | (.ok r, s1) =>
        (.ok (r.map (fun u => u.toObject.filter (fun kv => !(excluded.contains kv.1)))), s1)
      | (.error e, s1) => (.error e, s1) }

/-- Writes a document back over the stored one with the same `_id`. -/
def State.replace (s : State) (u : UserDoc) : State :=
  { s with users := s.users.map (fun d => if d._id == u._id then u else d) }

/-! ## What the controller takes from outside -/

/-- The decoded payload of a token, as far as the controller reads it. -/
structure Payload where
  _id : Nat
  deriving DecidableEq, Repr

/-- The result object of a successful upload, as far as the controller reads
it. -/
structure UploadResult where
  url : String
  deriving DecidableEq, Repr

/-- Modelled from the spec: the instance methods and the pre-save hook of the
user schema (`models/user.model.js`) are not among the sources, nor are the JWT
library, the media host and the global scope. The controller is embedded over
them.

* `isPasswordCorrect user password` is the value the call
  `user.isPasswordCorrect(password)` returns, a boolean or a promise of one;
* `generateAccessToken`, `generateRefreshToken` sign a token for the user;
* `hashPassword` is the pre-save hook on a modified password (it may throw);
* `castCondition v stored` says whether the ORM lets a query condition `v` that
  is neither a string nor `undefined`/`null` (a number it casts, an object it
  reads as operators) match the stored string;
* `castString v` is the ORM's cast of such a value to a string path in an
  update, `none` when the cast fails;
* `jwtVerify token secret` is `jwt.verify`, `none` when it throws;
* `REFRESH_TOKEN_SECRET` is the binding of that free identifier in the global
  scope, `none` when there is none (the module neither declares nor imports
  it);
* `upload path` is the media host's upload, `none` when it fails;
* `unicodeLower` is the runtime's `toLowerCase` on text that is not ASCII. -/
structure Env where
  isPasswordCorrect : UserDoc → JsVal → JsVal
  generateAccessToken : UserDoc → String
  generateRefreshToken : UserDoc → String
  hashPassword : JsVal → Except Thrown String
  castCondition : JsVal → String → Bool
  castString : JsVal → Option String
  jwtVerify : JsVal → String → Option Payload
  REFRESH_TOKEN_SECRET : Option String
  upload : String → Option UploadResult
  unicodeLower : String → String

/-- Whether the condition `{ path: v }` of a query matches a document whose
`path` holds `stored`: a string matches the equal string; `undefined` and `null`
match no document, since every stored user has the field. -/
def conditionMatches (env : Env) (v : JsVal) (stored : String) : Bool :=
  match v with
  | .str x => x == stored
  | .undefined => false
  | .null => false
  | other => env.castCondition other stored

/-- The first document whose username or email matches the given condition. -/
def lookupOne (env : Env) (s : State) (username email : JsVal) : Option UserDoc :=
  s.users.find? (fun u =>
    conditionMatches env username u.username || conditionMatches env email u.email)

/-- `User.findOne({ $or: [{ username }, { email }] })`. -/
def User.findOne (env : Env) (username email : JsVal) : Query (Option UserDoc) :=
  { exec := fun s => (.ok (lookupOne env s username email), s) }

/-- The value an update writes to a string path: a string as it is, any other
value as the ORM casts it (a failed cast is a `CastError`). -/
def castForPath (env : Env) (path : String) (v : JsVal) : Except Thrown String :=
  match v with
  | .str x => .ok x
  | other =>
    match env.castString other with
    | some x => .ok x
    | none => .error (.castError path)

/-- The `$set` of one path of a user document, as `findByIdAndUpdate` applies
it. A key whose value is `undefined` is dropped from the update by the ORM, so
the document keeps what it had; a path the schema does not have is ignored. -/
def UserDoc.setPath (env : Env) (u : UserDoc) (path : String) (v : JsVal) :
    Except Thrown UserDoc :=
  if v = .undefined then .ok u
  else
    match castForPath env path v with
    | .error e => .error e
    | .ok x =>
      if path = "fullName" then .ok { u with fullName := x }
      else if path = "email" then .ok { u with email := x }
      else if path = "avatar" then .ok { u with avatar := x }
      else if path = "coverImage" then .ok { u with coverImage := x }
      else if path = "refreshToken" then .ok { u with refreshToken := some x }
      else .ok u

/-- The whole `$set` object applied to a document, key by key. -/
def UserDoc.applySet (env : Env) (u : UserDoc) : List (String × JsVal) → Except Thrown UserDoc
  | [] => .ok u
  | (path, v) :: rest =>
    match u.setPath env path v with
    | .error e => .error e
    | .ok u1 => UserDoc.applySet env u1 rest

/-- `User.findByIdAndUpdate(id, { $set: set }, { new: true })`: when run, it
rewrites the document with that `_id` and yields the updated document (`null`
when there is none); an email already held by another document violates the
unique index. -/
def User.findByIdAndUpdate (env : Env) (id : Option Nat) (set : List (String × JsVal)) :
    Query (Option UserDoc) :=
  { exec := fun s =>
      match lookupById s id with
      | none => (.ok none, s)
      | some u =>
        match u.applySet env set with
        | .error e => (.error e, s)
        | .ok u1 =>
          if s.users.any (fun d => d._id != u1._id && d.email == u1.email) then
            (.error (.duplicateKeyError "email"), s)
          else (.ok (some u1), s.replace u1) }

/-- An uploaded file as the multipart middleware describes it. -/
structure File where
  path : String
  deriving DecidableEq, Repr

/-- The object `req.files`: one array per form field that carried files. -/
structure Files where
  avatar : Option (List File)
  coverImage : Option (List File)
  deriving DecidableEq, Repr

/-- The fields of `req.body` the handlers read, as the body parsers deliver
them; `undefined` is an absent key. -/
structure Body where
  username : JsVal
  email : JsVal
  fullName : JsVal
  password : JsVal
  oldPassword : JsVal
  newPassword : JsVal
  refreshToken : JsVal
  deriving DecidableEq, Repr

/-- The request: body, the `refreshToken` cookie, the uploaded files and the
user object the authentication middleware attached. -/
structure Req where
  body : Body
  cookieRefreshToken : JsVal
  files : Option Files
  user : Option Doc
  deriving DecidableEq, Repr

/-- A body with no keys. -/
def Body.none : Body :=
  { username := .undefined, email := .undefined, fullName := .undefined,
    password := .undefined, oldPassword := .undefined, newPassword := .undefined,
    refreshToken := .undefined }

/-! ## `utils/cloudinary.js` -/

/-- `uploadOnCloudinary(filePath)`: `null` for a falsy path; otherwise the
upload is attempted and the local file is deleted, on success (the result is
returned) and on failure (`null`). -/
def uploadOnCloudinary (env : Env) (s : State) (filePath : Option String) :
    Option UploadResult × State :=
  match filePath with
  | none => (none, s)
  | some p =>
    if !truthyStr (some p) then (none, s)
    else
      match env.upload p with
      | some uploadResult => (some uploadResult, { s with unlinked := p :: s.unlinked })
      | none => (none, { s with unlinked := p :: s.unlinked })

/-! ## `controllers/user.controller.js` -/

/-- `user.save({ validateBeforeSave: false })` for a document whose password was
not modified: the document is written back as it is. -/
def UserDoc.save (s : State) (u : UserDoc) : State := s.replace u

/-- `generateAccessAndRefreshToken(userId)`. Any error inside the `try` (here:
calling a method on the `null` user) becomes `ApiError(500)`. The value bound
to `accessToken` comes from `generateRefreshToken` and the value bound to
`refreshToken`, which is stored on the user, from `generateAccessToken`. The
`save` is started but not awaited; its write is part of the resulting state. -/
def generateAccessAndRefreshToken (env : Env) (s : State) (userId : Option Nat) :
    Except Thrown (String × String) × State :=
  match (User.findById userId).exec s with
  | (.ok (some user), s1) =>
    let accessToken := env.generateRefreshToken user
    let refreshToken := env.generateAccessToken user
    let s2 := UserDoc.save s1 { user with refreshToken := some refreshToken }
    (.ok (accessToken, refreshToken), s2)
  | (_, s1) =>
    (.error (.apiError 500 "Something went wrong while generating refresh and access tokens"), s1)

/-- The cookie options every handler uses. -/
def cookieOptions : CookieOptions := { httpOnly := true, secure := true }

/-- The fields excluded by `.select("-password -refreshToken")`. -/
def noSecrets : List String := ["password", "refreshToken"]

/-- The expression `req.files?.field[0]?.path`: `undefined` when `req.files` is
absent; a `TypeError` when `req.files` is there but has no such field (indexing
`undefined`); otherwise the path of the first file, if any. -/
def firstFilePath (files : Option Files) (field : Files → Option (List File)) :
    Except Thrown (Option String) :=
  match files with
  | none => .ok none
  | some fs =>
    match field fs with
    | none => .error (.typeError "Cannot read properties of undefined (reading '0')")
    | some arr => .ok (arr.head?.map File.path)

/-- Modelled from the spec: the user schema `models/user.model.js` is not among
the sources. `User.create(fields)` validates that the required fields are there,
hashes the password in the pre-save hook, enforces the unique username and
email, and inserts the document under a fresh `_id`. The controller calls it
with strings or `undefined`/`null` only: any other value has made the
validation of `registerUser` throw. -/
def User.create (env : Env) (s : State) (fullName : JsVal) (avatar coverImage : String)
    (email password : JsVal) (username : String) : Except Thrown UserDoc × State :=
  match fullName, email, password with
  | .str fn, .str em, .str pw =>
    match env.hashPassword (.str pw) with
    | .error e => (.error e, s)
    | .ok hashed =>
      if s.users.any (fun d => d.username == username) then
        (.error (.duplicateKeyError "username"), s)
      else if s.users.any (fun d => d.email == em) then
        (.error (.duplicateKeyError "email"), s)
      else
        let doc : UserDoc :=
          { _id := (s.users.map UserDoc._id).foldl max 0 + 1, username := username,
            email := em, fullName := fn, avatar := avatar, coverImage := coverImage,
            password := hashed, refreshToken := none }
        (.ok doc, { s with users := s.users ++ [doc] })
  | .str _, .str _, _ => (.error (.validationError "password"), s)
  | .str _, _, _ => (.error (.validationError "email"), s)
  | _, _, _ => (.error (.validationError "fullName"), s)

/-- `registerUser`. -/
def registerUser (env : Env) (s : State) (req : Req) : Completion × State :=
  let username := req.body.username
  let email := req.body.email
  let fullName := req.body.fullName
  let password := req.body.password
  -- [fullName, email, username, password].some((field) => field?.trim() === "")
  match someBlank [fullName, email, username, password] with
  | .error e => (.threw e, s)
  | .ok true => (.threw (.apiError 400 "All fields are required"), s)
  | .ok false =>
    match (User.findOne env username email).exec s with
    | (.error e, s1) => (.threw e, s1)
    | (.ok user, s1) =>
      if user.isSome then (.threw (.apiError 409 "User already exists"), s1)
      else
        match firstFilePath req.files Files.avatar with
        | .error e => (.threw e, s1)
        | .ok avatarLocalPath =>
          match firstFilePath req.files Files.coverImage with
          | .error e => (.threw e, s1)
          | .ok coverImageLocalPath =>
            if !truthyStr avatarLocalPath then (.threw (.apiError 400 "Avatar is required"), s1)
            else
              let (avatar, s2) := uploadOnCloudinary env s1 avatarLocalPath
              let (coverImage, s3) := uploadOnCloudinary env s2 coverImageLocalPath
              match avatar with
              | none => (.threw (.apiError 400 "Avatar is required"), s3)
              | some avatar =>
                -- coverImage?.url || ""
                let coverUrl := (jsOr (coverImage.map UploadResult.url) (some "")).getD ""
                -- username.toLowerCase()
                match username with
                | .str uname =>
                  match User.create env s3 fullName avatar.url coverUrl email password
                      (toLowerCase env.unicodeLower uname) with
                  | (.error e, s4) => (.threw e, s4)
                  | (.ok _data, s4) =>
                    -- User.findById(user._id): `user` is the result of the lookup above
                    match user with
                    | none =>
                      (.threw (.typeError
                        "Cannot read properties of null (reading '_id')"), s4)
                    | some u =>
                      match ((User.findById (some u._id)).select noSecrets).exec s4 with
                      | (.error e, s5) => (.threw e, s5)
                      | (.ok none, s5) =>
                        (.threw (.apiError 500 "Something went wrong required"), s5)
                      | (.ok (some createdUser), s5) =>
                        (Completion.ofExcept
                          (Res.call "json"
                            (Res.json ⟨200, "User registered succesfully",
                              .user (some createdUser)⟩)
                            (Res.call "status" (Res.status 201) (.ok Res.fresh))), s5)
                | .undefined =>
                  (.threw (.typeError
                    "Cannot read properties of undefined (reading 'toLowerCase')"), s3)
                | .null =>
                  (.threw (.typeError
                    "Cannot read properties of null (reading 'toLowerCase')"), s3)
                | _ => (.threw (.typeError "username.toLowerCase is not a function"), s3)

/-- `loginUser`. The result of `user.isPasswordCorrect(password)` is tested as
it is returned, without `await`; the response chain starts with `res.staus`. -/
def loginUser (env : Env) (s : State) (req : Req) : Completion × State :=
  let username := req.body.username
  let email := req.body.email
  let password := req.body.password
  if !username.truthy && !email.truthy then
    (.threw (.apiError 400 "Username or email is required."), s)
  else
    match (User.findOne env username email).exec s with
    | (.error e, s1) => (.threw e, s1)
    | (.ok none, s1) => (.threw (.apiError 404 "User doesn't exist"), s1)
    | (.ok (some user), s1) =>
      let isValidPassword := env.isPasswordCorrect user password
      if !isValidPassword.truthy then
        (.threw (.apiError 401 "Invalid User credentials"), s1)
      else
        match generateAccessAndRefreshToken env s1 (some user._id) with
        | (.error e, s2) => (.threw e, s2)
        | (.ok (accessToken, refreshToken), s2) =>
          match ((User.findById (some user._id)).select noSecrets).exec s2 with
          | (.error e, s3) => (.threw e, s3)
          | (.ok loggedInUser, s3) =>
            (Completion.ofExcept
              (Res.call "json"
                (Res.json ⟨200, "User logged in successfully",
                  .session loggedInUser accessToken refreshToken⟩)
                (Res.call "cookie" (Res.cookie "refreshToken" refreshToken cookieOptions)
                  (Res.call "cookie" (Res.cookie "accessToken" accessToken cookieOptions)
                    (Res.call "staus" (Res.status 200) (.ok Res.fresh))))), s3)

/-- `logoutUser`. The `findByIdAndUpdate` query is built and dropped: it is
neither awaited nor executed, so the store is not touched. -/
def logoutUser (env : Env) (s : State) (req : Req) : Completion × State :=
  match req.user with
  | none => (.threw (.typeError "Cannot read properties of undefined (reading '_id')"), s)
  | some reqUser =>
    let _query := User.findByIdAndUpdate env reqUser.id [("refreshToken", .undefined)]
    (Completion.ofExcept
      (Res.call "json" (Res.json ⟨200, "User logged out !", .empty⟩)
        (Res.call "clearCookie" (Res.clearCookie "refreshToken" cookieOptions)
          (Res.call "clearCookie" (Res.clearCookie "accessToken" cookieOptions)
            (Res.call "status" (Res.status 200) (.ok Res.fresh))))), s)

/-- The body of the `try` block of `refreshAccessToken`. `user` is the query
object returned by `User.findById`, which is not awaited. -/
def refreshAttempt (env : Env) (s : State) (incomingRefreshToken : JsVal) :
    Except Thrown Res × State :=
  match env.REFRESH_TOKEN_SECRET with
  | none => (.error (.referenceError "REFRESH_TOKEN_SECRET is not defined"), s)
  | some secret =>
    match env.jwtVerify incomingRefreshToken secret with
    | none => (.error .jsonWebTokenError, s)
    | some decodedToken =>
      -- `jwt.verify` returned an object, so `!decodedToken` is false
      let user := User.findById (some decodedToken._id)
      -- `user` is an object, so `!user` is false
      if incomingRefreshToken != user.refreshToken then
        (.error (.apiError 400 "Refresh token is expired or used"), s)
      else
        match generateAccessAndRefreshToken env s user._id with
        | (.error e, s1) => (.error e, s1)
        | (.ok (accessToken, refreshToken), s1) =>
          (Res.call "json" (Res.json ⟨201, "Tokens created again", .empty⟩)
            (Res.call "cookie" (Res.cookie "accessToken" accessToken cookieOptions)
              (Res.call "cookie" (Res.cookie "refreshToken" refreshToken cookieOptions)
                (Res.call "status" (Res.status 200) (.ok Res.fresh)))), s1)

/-- `refreshAccessToken`. For a falsy incoming token an `ApiError(401)` is
constructed but not thrown; every error of the `try` block is replaced by
`ApiError(400)`. -/
def refreshAccessToken (env : Env) (s : State) (req : Req) : Completion × State :=
  let incomingRefreshToken := req.cookieRefreshToken.or req.body.refreshToken
  match refreshAttempt env s incomingRefreshToken with
  | (.ok res, s1) => (.responded res, s1)
  | (.error _, s1) => (.threw (.apiError 400 "Error occured while refreshing tokens"), s1)

/-- `changeCurrentPassword`. The password check is awaited here. -/
def changeCurrentPassword (env : Env) (s : State) (req : Req) : Completion × State :=
  let oldPassword := req.body.oldPassword
  let newPassword := req.body.newPassword
  -- req.user?._id
  match (User.findById (req.user.bind Doc.id)).exec s with
  | (.error e, s1) => (.threw e, s1)
  | (.ok none, s1) =>
    (.threw (.typeError "Cannot read properties of null (reading 'isPasswordCorrect')"), s1)
  | (.ok (some user), s1) =>
    let isPasswordValid := (env.isPasswordCorrect user oldPassword).awaited
    if !isPasswordValid.truthy then
      (.threw (.apiError 400 "Invalid old password"), s1)
    else
      -- user.password = newPassword; await user.save(...): the hook hashes it
      match env.hashPassword newPassword with
      | .error e => (.threw e, s1)
      | .ok hashed =>
        (Completion.ofExcept
          (Res.call "json" (Res.json ⟨200, "Password changed successfully", .empty⟩)
            (Res.call "status" (Res.status 200) (.ok Res.fresh))),
          s1.replace { user with password := hashed })

/-- `getCurrentUser`: `req.user` is sent as it is. -/
def getCurrentUser (_env : Env) (s : State) (req : Req) : Completion × State :=
  (Completion.ofExcept
    (Res.call "json" (Res.json ⟨201, "Fetched successful", .user req.user⟩)
      (Res.call "status" (Res.status 200) (.ok Res.fresh))), s)

/-- `updateAccountDetails`: the updated document is projected with
`.select("-password")` only. -/
def updateAccountDetails (env : Env) (s : State) (req : Req) : Completion × State :=
  let fullName := req.body.fullName
  let email := req.body.email
  if !fullName.truthy || !email.truthy then
    (.threw (.apiError 400 "Details required"), s)
  else
    match ((User.findByIdAndUpdate env (req.user.bind Doc.id)
        [("fullName", fullName), ("email", email)]).select ["password"]).exec s with
    | (.error e, s1) => (.threw e, s1)
    | (.ok user, s1) =>
      (Completion.ofExcept
        (Res.call "json" (Res.json ⟨200, "Account Updated!!", .user user⟩)
          (Res.call "status" (Res.status 200) (.ok Res.fresh))), s1)

/-- The user object a response body carries, if it carries one. -/
def Completion.userObject : Completion → Option Doc
  | .responded ⟨_, _, some ⟨_, _, .user (some d)⟩⟩ => some d
  | .responded ⟨_, _, some ⟨_, _, .session (some d) _ _⟩⟩ => some d
  | _ => none

/-- The avatar file a registration request carries, if it carries one. -/
def Req.avatarFile (req : Req) : Option File :=
  (req.files.bind Files.avatar).bind List.head?

/-- Whether a body value is a string or absent (`undefined` or `null`): the
values on which `field?.trim()` does not throw. -/
def JsVal.isTextOrAbsent (v : JsVal) : Bool := (trimIsEmpty v).isSome

/-- Whether the four registration fields are strings or absent. -/
def Req.fieldsAreText (req : Req) : Bool :=
  [req.body.fullName, req.body.email, req.body.username, req.body.password].all
    JsVal.isTextOrAbsent

/-- Whether `req.files` is absent or holds both the `avatar` and the
`coverImage` array: the requests on which reading `req.files?.avatar[0]` and
`req.files?.coverImage[0]` does not throw. -/
def Req.filesReadable (req : Req) : Bool :=
  match req.files with
  | none => true
  | some fs => fs.avatar.isSome && fs.coverImage.isSome

/-! ## A concrete deployment, for the evaluations below -/

/-- A pre-save hook: the stored form of password `p` is `hash(p)`. -/
def sampleHash : JsVal → Except Thrown String
  | .str p => .ok ("hash(" ++ p ++ ")")
  | _ => .error .hookError

/-- An environment in which `isPasswordCorrect` is an `async` method comparing
the candidate with the stored hash, tokens name their kind and the user,
`jwt.verify` accepts the token `rt-abc` of user 1 under the secret
`refresh-secret`, and every upload succeeds. A condition that is not a string
matches nothing, a value that is not a string is not cast, and text that is not
ASCII is not lowered. The global scope has no `REFRESH_TOKEN_SECRET`. -/
def sampleEnv : Env :=
  { isPasswordCorrect := fun user password =>
      .promise (.bool (match sampleHash password with
        | .ok hashed => hashed == user.password
        | .error _ => false))
    generateAccessToken := fun user => "access-" ++ user.username
    generateRefreshToken := fun user => "refresh-" ++ user.username
    hashPassword := sampleHash
    castCondition := fun _ _ => false
    castString := fun _ => none
    jwtVerify := fun token secret =>
      if token = .str "rt-abc" ∧ secret = "refresh-secret" then some ⟨1⟩ else none
    REFRESH_TOKEN_SECRET := none
    upload := fun path => some ⟨"https://media.example/" ++ path⟩
    unicodeLower := fun text => text }

/-- The same environment with a synchronous `isPasswordCorrect`, which returns
the boolean itself. -/
def syncEnv : Env :=
  { sampleEnv with
    isPasswordCorrect := fun user password => (sampleEnv.isPasswordCorrect user password).awaited }

/-- A registered user whose password is `pw` and whose stored refresh token is
`rt-abc`. -/
def sampleUser : UserDoc :=
  { _id := 1, username := "abc", email := "a@b.com", fullName := "A B",
    avatar := "https://media.example/a.png", coverImage := "",
    password := "hash(pw)", refreshToken := some "rt-abc" }

/-- A store holding `sampleUser` only. -/
def sampleState : State := { users := [sampleUser], unlinked := [] }

/-- An empty store. -/
def emptyState : State := { users := [], unlinked := [] }

/-- A request with the given body and nothing else. -/
def Req.ofBody (body : Body) : Req :=
  { body := body, cookieRefreshToken := .undefined, files := none, user := none }

/-- The view of `sampleUser` the authentication middleware attaches to a
request: the stored document without its secrets. -/
def sampleReqUser : Doc :=
  sampleUser.toObject.filter (fun kv => !(noSecrets.contains kv.1))

/-- Login as `abc` with the given password. -/
def loginAs (password : String) : Req :=
  Req.ofBody { Body.none with username := .str "abc", password := .str password }

/-- A refresh request presenting `rt-abc` in the cookie. -/
def refreshReq : Req :=
  { Req.ofBody Body.none with cookieRefreshToken := .str "rt-abc" }

/-- An authenticated request of `sampleUser` with the given body. -/
def authedReq (body : Body) : Req :=
  { Req.ofBody body with user := some sampleReqUser }

/-- The registration body of the spec's example. -/
def exampleBody : Body :=
  { Body.none with
    username := .str "abc", email := .str "a@b.com", fullName := .str "A B",
    password := .str "pw" }

/-! ## General facts about the handlers -/

/-- Looking a user up does not change the store. -/
theorem findById_exec (s : State) (id : Option Nat) :
    (User.findById id).exec s = (.ok (lookupById s id), s) := rfl

/-- Minting tokens for an `undefined` user id fails with 500 and writes
nothing. -/
theorem generateAccessAndRefreshToken_undefined (env : Env) (s : State) :
    generateAccessAndRefreshToken env s none =
      (.error (.apiError 500 "Something went wrong while generating refresh and access tokens"),
        s) := rfl

/-- The `try` block of the refresh handler never produces a response and never
writes to the store. -/
theorem refreshAttempt_fails (env : Env) (s : State) (token : JsVal) :
    ∃ e, refreshAttempt env s token = (.error e, s) := by
  unfold refreshAttempt
  cases hs : env.REFRESH_TOKEN_SECRET with
  | none => exact ⟨_, rfl⟩
  | some secret =>
    cases hv : env.jwtVerify token secret with
    | none => simp only [hv]; exact ⟨_, rfl⟩
    | some decodedToken =>
      cases token <;> simp only [hv] <;> exact ⟨_, rfl⟩

/-- The refresh handler fails with 400 on every request, in every environment,
and leaves the store as it was. -/
theorem refreshAccessToken_always_fails (env : Env) (s : State) (req : Req) :
    refreshAccessToken env s req =
      (.threw (.apiError 400 "Error occured while refreshing tokens"), s) := by
  unfold refreshAccessToken
  obtain ⟨e, he⟩ := refreshAttempt_fails env s (req.cookieRefreshToken.or req.body.refreshToken)
  simp only [he]

/-- The response chain of the login handler throws whatever it is given. -/
theorem login_chain_throws (body : ApiResponse) (accessToken refreshToken : String) :
    Completion.ofExcept
      (Res.call "json" (Res.json body)
        (Res.call "cookie" (Res.cookie "refreshToken" refreshToken cookieOptions)
          (Res.call "cookie" (Res.cookie "accessToken" accessToken cookieOptions)
            (Res.call "staus" (Res.status 200) (.ok Res.fresh))))) =
      .threw (.typeError "res.staus is not a function") := rfl

/-- The login handler never sends a response: every path ends in a throw. -/
theorem loginUser_never_responds (env : Env) (s : State) (req : Req) :
    ∃ e, (loginUser env s req).1 = .threw e := by
  unfold loginUser
  simp only [User.findOne, findById_exec, Query.select]
  split
  · exact ⟨_, rfl⟩
  · cases lookupOne env s req.body.username req.body.email with
    | none => exact ⟨_, rfl⟩
    | some user =>
      simp only []
      split
      · exact ⟨_, rfl⟩
      · cases h : generateAccessAndRefreshToken env s (some user._id) with
        | mk r s2 =>
          cases r with
          | error e => exact ⟨_, rfl⟩
          | ok tokens => exact ⟨_, rfl⟩

/-- When the value returned by `isPasswordCorrect` is itself falsy (a
synchronous check answering `false`), the login handler fails with 401, sets no
cookie and leaves the store as it was. -/
theorem loginUser_falsy_check (env : Env) (s : State) (req : Req) (user : UserDoc)
    (hName : (!req.body.username.truthy && !req.body.email.truthy) = false)
    (hUser : lookupOne env s req.body.username req.body.email = some user)
    (hFalsy : (env.isPasswordCorrect user req.body.password).truthy = false) :
    loginUser env s req = (.threw (.apiError 401 "Invalid User credentials"), s) := by
  unfold loginUser
  simp only [User.findOne, hName, hUser, hFalsy]
  rfl

/-- When `isPasswordCorrect` is an `async` method, so that its call returns a
promise, the login handler never fails with 401, whatever the promise resolves
to. -/
theorem loginUser_async_check_never_401 (env : Env) (s : State) (req : Req)
    (hAsync : ∀ user password, ∃ v, env.isPasswordCorrect user password = .promise v) :
    (loginUser env s req).1.failsWith 401 = false := by
  unfold loginUser
  simp only [User.findOne, findById_exec, Query.select, generateAccessAndRefreshToken]
  split
  · rfl
  · cases lookupOne env s req.body.username req.body.email with
    | none => rfl
    | some user =>
      obtain ⟨v, hv⟩ := hAsync user req.body.password
      simp only [hv, JsVal.truthy]
      cases lookupById s (some user._id) with
      | none => rfl
      | some found => rfl

/-- The two facts above at the login of `abc` with the wrong password `nope`:
401 under the synchronous check, no 401 under the `async` one. -/
theorem loginUser_check_examples :
    loginUser syncEnv sampleState (loginAs "nope") =
      (.threw (.apiError 401 "Invalid User credentials"), sampleState) ∧
    (loginUser sampleEnv sampleState (loginAs "nope")).1.failsWith 401 = false :=
  ⟨loginUser_falsy_check syncEnv sampleState (loginAs "nope") sampleUser rfl rfl rfl,
    loginUser_async_check_never_401 sampleEnv sampleState (loginAs "nope")
      (fun _ _ => ⟨_, rfl⟩)⟩

/-- The logout handler never writes to the store. -/
theorem logoutUser_keeps_store (env : Env) (s : State) (req : Req) :
    (logoutUser env s req).2 = s := by
  unfold logoutUser
  cases req.user <;> rfl

/-- The only error the field validation can throw is a `TypeError`. -/
theorem someBlank_error (fields : List JsVal) (e : Thrown)
    (h : someBlank fields = .error e) : e = .typeError "field?.trim is not a function" := by
  induction fields with
  | nil => simp [someBlank] at h
  | cons field rest ih =>
    unfold someBlank at h
    cases ht : trimIsEmpty field with
    | none =>
      simp only [ht] at h
      cases h
      rfl
    | some b =>
      cases b with
      | true => simp [ht] at h
      | false =>
        simp only [ht] at h
        exact ih h

/-- On fields that are strings or absent the validation does not throw. -/
theorem someBlank_ok (fields : List JsVal)
    (h : fields.all JsVal.isTextOrAbsent = true) : ∃ b, someBlank fields = .ok b := by
  induction fields with
  | nil => exact ⟨false, rfl⟩
  | cons field rest ih =>
    simp only [List.all_cons, Bool.and_eq_true] at h
    unfold someBlank
    cases ht : trimIsEmpty field with
    | none => simp [JsVal.isTextOrAbsent, ht] at h
    | some b =>
      cases b with
      | true => exact ⟨true, rfl⟩
      | false => exact ih h.2

/-- The registration handler never sends a response: after the conflict check
the looked-up `user` is `null`, and reading `user._id` throws. -/
theorem registerUser_never_responds (env : Env) (s : State) (req : Req) :
    ∃ e, (registerUser env s req).1 = .threw e := by
  unfold registerUser
  simp only [User.findOne]
  cases someBlank [req.body.fullName, req.body.email, req.body.username, req.body.password] with
  | error e => exact ⟨_, rfl⟩
  | ok blank =>
    cases blank with
    | true => exact ⟨_, rfl⟩
    | false =>
      simp only []
      cases hu : lookupOne env s req.body.username req.body.email with
      | some u => exact ⟨_, rfl⟩
      | none =>
        simp only [Option.isSome_none, Bool.false_eq_true, if_false]
        cases firstFilePath req.files Files.avatar with
        | error e => exact ⟨_, rfl⟩
        | ok avatarLocalPath =>
          cases firstFilePath req.files Files.coverImage with
          | error e => exact ⟨_, rfl⟩
          | ok coverImageLocalPath =>
            simp only []
            split
            · exact ⟨_, rfl⟩
            · cases h1 : uploadOnCloudinary env s avatarLocalPath with
              | mk avatar s2 =>
                cases h2 : uploadOnCloudinary env s2 coverImageLocalPath with
                | mk coverImage s3 =>
                  cases avatar with
                  | none => exact ⟨_, rfl⟩
                  | some avatar =>
                    cases req.body.username with
                    | str uname =>
                      simp only []
                      split
                      · exact ⟨_, rfl⟩
                      · exact ⟨_, rfl⟩
                    | _ => exact ⟨_, rfl⟩

/-- A required field that is blank after trimming, met before any field that is
not a string, makes the registration fail with 400 before anything else is
done. -/
theorem registerUser_blank_field (env : Env) (s : State) (req : Req)
    (hBlank : someBlank
      [req.body.fullName, req.body.email, req.body.username, req.body.password] = .ok true) :
    registerUser env s req = (.threw (.apiError 400 "All fields are required"), s) := by
  unfold registerUser
  simp only [hBlank]

/-- The fact above at the example body with a `fullName` of two spaces. -/
theorem registerUser_blank_field_example :
    registerUser sampleEnv emptyState (Req.ofBody { exampleBody with fullName := .str "  " }) =
      (.threw (.apiError 400 "All fields are required"), emptyState) :=
  registerUser_blank_field sampleEnv emptyState
    (Req.ofBody { exampleBody with fullName := .str "  " }) rfl

/-- A registration request without an avatar file never writes to the store. -/
theorem registerUser_no_avatar_store (env : Env) (s : State) (req : Req)
    (hNoAvatar : req.avatarFile = none) : (registerUser env s req).2 = s := by
  unfold registerUser
  simp only [User.findOne]
  cases someBlank [req.body.fullName, req.body.email, req.body.username, req.body.password] with
  | error e => rfl
  | ok blank =>
    cases blank with
    | true => rfl
    | false =>
      simp only []
      cases hu : lookupOne env s req.body.username req.body.email with
      | some u => rfl
      | none =>
        simp only [Option.isSome_none, Bool.false_eq_true, if_false]
        cases hf : req.files with
        | none => rfl
        | some fs =>
          cases ha : fs.avatar with
          | none => simp only [firstFilePath, ha]
          | some arr =>
            cases arr with
            | cons f rest => simp [Req.avatarFile, hf, ha] at hNoAvatar
            | nil =>
              cases hc : fs.coverImage with
              | none => simp only [firstFilePath, ha, hc]
              | some cover =>
                simp only [firstFilePath, ha, hc]
                rfl

/-- A registration request without an avatar file that matches no stored user
fails with `ApiError(400)` or throws a `TypeError`. -/
theorem registerUser_no_avatar_outcome (env : Env) (s : State) (req : Req)
    (hNoAvatar : req.avatarFile = none)
    (hNew : lookupOne env s req.body.username req.body.email = none) :
    (registerUser env s req).1.failsWith 400 = true ∨
      ∃ msg, (registerUser env s req).1 = .threw (.typeError msg) := by
  unfold registerUser
  simp only [User.findOne, hNew]
  cases hb : someBlank
      [req.body.fullName, req.body.email, req.body.username, req.body.password] with
  | error e =>
    rw [someBlank_error _ _ hb]
    exact Or.inr ⟨_, rfl⟩
  | ok blank =>
    cases blank with
    | true => exact Or.inl rfl
    | false =>
      simp only [Option.isSome_none, Bool.false_eq_true, if_false]
      cases hf : req.files with
      | none => exact Or.inl rfl
      | some fs =>
        cases ha : fs.avatar with
        | none =>
          simp only [firstFilePath, ha]
          exact Or.inr ⟨_, rfl⟩
        | some arr =>
          cases arr with
          | cons f rest => simp [Req.avatarFile, hf, ha] at hNoAvatar
          | nil =>
            cases hc : fs.coverImage with
            | none =>
              simp only [firstFilePath, ha, hc]
              exact Or.inr ⟨_, rfl⟩
            | some cover =>
              simp only [firstFilePath, ha, hc]
              exact Or.inl rfl

/-- A registration request without an avatar file that matches no stored user,
whose fields are strings or absent and whose `files` object is absent or holds
both arrays, fails with `ApiError(400)`. -/
theorem registerUser_no_avatar_400 (env : Env) (s : State) (req : Req)
    (hNoAvatar : req.avatarFile = none)
    (hNew : lookupOne env s req.body.username req.body.email = none)
    (hText : req.fieldsAreText = true) (hFiles : req.filesReadable = true) :
    (registerUser env s req).1.failsWith 400 = true := by
  rcases registerUser_no_avatar_outcome env s req hNoAvatar hNew with h | ⟨msg, h⟩
  · exact h
  · exfalso
    obtain ⟨blank, hb⟩ := someBlank_ok _ hText
    revert h
    unfold registerUser
    simp only [User.findOne, hNew, hb]
    cases blank with
    | true => intro h; cases h
    | false =>
      simp only [Option.isSome_none, Bool.false_eq_true, if_false]
      cases hf : req.files with
      | none => intro h; cases h
      | some fs =>
        simp only [Req.filesReadable, hf, Bool.and_eq_true] at hFiles
        cases ha : fs.avatar with
        | none => simp [ha] at hFiles
        | some arr =>
          cases hc : fs.coverImage with
          | none => simp [hc] at hFiles
          | some cover =>
            cases arr with
            | cons f rest => simp [Req.avatarFile, hf, ha] at hNoAvatar
            | nil =>
              simp only [firstFilePath, ha, hc]
              intro h
              cases h

/-! ## The claims -/

/-- C1 (defect in the code): login as the existing user `abc` with the wrong
password `nope`, the password check being an `async` method that resolves to
`false`. The handler tests the promise itself, which is truthy, so it does not
fail with 401: it mints tokens, stores the new refresh token on the user, and
then throws the `TypeError` of `res.staus`. No cookie is set. -/
theorem loginUser_wrong_password_not_401 :
    lookupOne sampleEnv sampleState (loginAs "nope").body.username (loginAs "nope").body.email
        = some sampleUser ∧
    (sampleEnv.isPasswordCorrect sampleUser (loginAs "nope").body.password).awaited
        = .bool false ∧
    loginUser sampleEnv sampleState (loginAs "nope") =
      (.threw (.typeError "res.staus is not a function"),
        { users := [{ sampleUser with refreshToken := some "access-abc" }], unlinked := [] }) ∧
    (loginUser sampleEnv sampleState (loginAs "nope")).1.failsWith 401 = false ∧
    (loginUser sampleEnv sampleState (loginAs "nope")).1.cookies = [] := by
  refine ⟨rfl, rfl, rfl, rfl, rfl⟩

/-- C2 (defect in the code): login as the existing user `abc` with the correct
password `pw`. The handler does not complete with a 200 response: the response
chain starts with `res.staus(200)`, which is not a method of the response, so
the handler throws a `TypeError` and sets no cookie. -/
theorem loginUser_correct_password_throws :
    (sampleEnv.isPasswordCorrect sampleUser (loginAs "pw").body.password).awaited
        = .bool true ∧
    (loginUser sampleEnv sampleState (loginAs "pw")).1 =
      .threw (.typeError "res.staus is not a function") ∧
    (loginUser sampleEnv sampleState (loginAs "pw")).1.cookies = [] := by
  refine ⟨rfl, rfl, rfl⟩

/-- C3 (defect in the code): a refresh request whose cookie holds `rt-abc`, a
token that verifies under the refresh secret, refers to the existing user 1 and
equals that user's stored refresh token. Whether or not the global scope binds
`REFRESH_TOKEN_SECRET`, the handler fails with 400, mints nothing, stores
nothing and sets no cookie. -/
theorem refreshAccessToken_valid_token_fails :
    sampleEnv.jwtVerify refreshReq.cookieRefreshToken "refresh-secret" = some ⟨1⟩ ∧
    ((lookupById sampleState (some 1)).bind UserDoc.refreshToken).map JsVal.str
        = some refreshReq.cookieRefreshToken ∧
    ∀ binding : Option String,
      refreshAccessToken { sampleEnv with REFRESH_TOKEN_SECRET := binding } sampleState
          refreshReq =
        (.threw (.apiError 400 "Error occured while refreshing tokens"), sampleState) := by
  refine ⟨rfl, rfl, fun binding => ?_⟩
  exact refreshAccessToken_always_fails _ _ _

/-- C4: whatever a refresh request did, a following refresh request (in
particular one presenting the same token) fails with `ApiError(400)` and sets
no cookie. This is proved for every environment, store and pair of requests, so
it holds whenever the first request succeeded; in this code no refresh request
succeeds (`refreshAccessToken_always_fails`), which is why the property needs
no premise. -/
theorem refreshAccessToken_reuse_fails (env : Env) (s : State) (first second : Req) :
    (refreshAccessToken env (refreshAccessToken env s first).2 second).1.failsWith 400 = true ∧
    (refreshAccessToken env (refreshAccessToken env s first).2 second).1.cookies = [] := by
  simp only [refreshAccessToken_always_fails]
  exact ⟨rfl, rfl⟩

/-- C5 (defect in the code): logout of the authenticated user 1, whose stored
refresh token is `rt-abc`. The response has status 200 and clears both cookies,
but the update query is never run: after the call the user record still holds
`rt-abc`. -/
theorem logoutUser_keeps_refreshToken :
    (logoutUser sampleEnv sampleState (authedReq Body.none)).1 =
      .responded
        { statusCode := 200,
          cookies := [.clear "accessToken" cookieOptions, .clear "refreshToken" cookieOptions],
          body := some ⟨200, "User logged out !", .empty⟩ } ∧
    (lookupById (logoutUser sampleEnv sampleState (authedReq Body.none)).2
        ((authedReq Body.none).user.bind Doc.id)).bind UserDoc.refreshToken = some "rt-abc" := by
  refine ⟨rfl, rfl⟩

/-- C6: for a change-password request of an existing user whose `oldPassword`
fails the awaited password check, `changeCurrentPassword` fails with
`ApiError(400)` and the store after the call is the store before it: the stored
password is unchanged and nothing was saved. -/
theorem changeCurrentPassword_wrong_oldPassword (env : Env) (s : State) (req : Req)
    (user : UserDoc)
    (hUser : lookupById s (req.user.bind Doc.id) = some user)
    (hWrong : (env.isPasswordCorrect user req.body.oldPassword).awaited.truthy = false) :
    (changeCurrentPassword env s req).1 = .threw (.apiError 400 "Invalid old password") ∧
    (changeCurrentPassword env s req).2 = s := by
  unfold changeCurrentPassword
  simp only [findById_exec, hUser, hWrong]
  exact ⟨rfl, rfl⟩

/-- C6 at a concrete request: user 1, whose password is `pw`, asks to change it
presenting `bad` as the old one. -/
theorem changeCurrentPassword_wrong_oldPassword_witness :
    lookupById sampleState
        ((authedReq { Body.none with oldPassword := .str "bad", newPassword := .str "new" }).user.bind
          Doc.id) = some sampleUser ∧
    (changeCurrentPassword sampleEnv sampleState
        (authedReq { Body.none with oldPassword := .str "bad", newPassword := .str "new" })).1
      = .threw (.apiError 400 "Invalid old password") ∧
    (changeCurrentPassword sampleEnv sampleState
        (authedReq { Body.none with oldPassword := .str "bad", newPassword := .str "new" })).2
      = sampleState :=
  ⟨rfl,
    changeCurrentPassword_wrong_oldPassword sampleEnv sampleState
      (authedReq { Body.none with oldPassword := .str "bad", newPassword := .str "new" })
      sampleUser rfl rfl⟩

/-- C7 (defect in the code): an update-account request of user 1, whose stored
document holds the refresh token `rt-abc`. The handler responds with 200 and a
user object from which only `password` was excluded: it has the key
`refreshToken`. -/
theorem updateAccountDetails_sends_refreshToken :
    ∃ d : Doc,
      (updateAccountDetails sampleEnv sampleState
          (authedReq { Body.none with fullName := .str "A C", email := .str "a@c.com" })).1.userObject
        = some d ∧
      d.hasKey "password" = false ∧
      d.hasKey "refreshToken" = true ∧
      d.lookup "refreshToken" = some (.str "rt-abc") :=
  ⟨_, rfl, rfl, rfl, rfl⟩

/-- C8 (defect in the code): a registration whose body has no `fullName` key and
names the existing user `abc`. The validation compares `undefined` with the
empty string and lets the request through; the store is consulted and the
handler fails with 409, not 400. -/
theorem registerUser_absent_field_passes_validation :
    (Req.ofBody { exampleBody with fullName := .undefined }).body.fullName = .undefined ∧
    registerUser sampleEnv sampleState (Req.ofBody { exampleBody with fullName := .undefined }) =
      (.threw (.apiError 409 "User already exists"), sampleState) ∧
    (registerUser sampleEnv sampleState
      (Req.ofBody { exampleBody with fullName := .undefined })).1.failsWith 400 = false :=
  ⟨rfl, rfl, rfl⟩

/-- C9 as stated fails: a registration without an avatar file whose username is
already taken fails with 409, not 400. -/
theorem registerUser_without_avatar_conflict :
    ¬ ∀ (env : Env) (s : State) (req : Req), req.avatarFile = none →
        (registerUser env s req).1.failsWith 400 = true := by
  intro h
  have h409 := h sampleEnv sampleState (Req.ofBody exampleBody) rfl
  exact absurd h409 (by decide)

/-- C9 (amended): a registration request that carries no avatar file creates no
user document and leaves the store as it was, whatever its fields and files.
When no stored user has its username or email, it fails with `ApiError(400)`
unless the handler throws a `TypeError`; and it does fail with `ApiError(400)`
when its four fields are strings or absent and `req.files` is absent or holds
both the `avatar` and the `coverImage` array. -/
theorem registerUser_without_avatar (env : Env) (s : State) (req : Req)
    (hNoAvatar : req.avatarFile = none) :
    (registerUser env s req).2 = s ∧
    (lookupOne env s req.body.username req.body.email = none →
      ((registerUser env s req).1.failsWith 400 = true ∨
        ∃ msg, (registerUser env s req).1 = .threw (.typeError msg)) ∧
      (req.fieldsAreText = true → req.filesReadable = true →
        (registerUser env s req).1.failsWith 400 = true)) :=
  ⟨registerUser_no_avatar_store env s req hNoAvatar,
    fun hNew =>
      ⟨registerUser_no_avatar_outcome env s req hNoAvatar hNew,
        registerUser_no_avatar_400 env s req hNoAvatar hNew⟩⟩

/-- C9 (amended) at a concrete request: the example body on an empty store,
with a `files` object whose `avatar` and `coverImage` arrays are empty. -/
theorem registerUser_without_avatar_witness :
    ({ Req.ofBody exampleBody with files := some ⟨some [], some []⟩ } : Req).avatarFile = none ∧
    lookupOne sampleEnv emptyState exampleBody.username exampleBody.email = none ∧
    (registerUser sampleEnv emptyState
      { Req.ofBody exampleBody with files := some ⟨some [], some []⟩ }).2 = emptyState ∧
    (registerUser sampleEnv emptyState
      { Req.ofBody exampleBody with files := some ⟨some [], some []⟩ }).1.failsWith 400 = true :=
  ⟨rfl, rfl,
    (registerUser_without_avatar sampleEnv emptyState
      { Req.ofBody exampleBody with files := some ⟨some [], some []⟩ } rfl).1,
    ((registerUser_without_avatar sampleEnv emptyState
      { Req.ofBody exampleBody with files := some ⟨some [], some []⟩ } rfl).2 rfl).2 rfl rfl⟩

/-- The requests the amended C9 leaves open, on an empty store: with only a
cover image attached, and with a number as `username` and no files, the handler
throws a `TypeError`; nothing is created. -/
theorem registerUser_crash_examples :
    registerUser sampleEnv emptyState
        { Req.ofBody exampleBody with files := some ⟨none, some [⟨"temp/c.png"⟩]⟩ } =
      (.threw (.typeError "Cannot read properties of undefined (reading '0')"), emptyState) ∧
    registerUser sampleEnv emptyState (Req.ofBody { exampleBody with username := .num 5 }) =
      (.threw (.typeError "field?.trim is not a function"), emptyState) :=
  ⟨rfl, rfl⟩

/-- C10 (defect in the code): the registration of the spec's example (username
`abc`, four non-blank fields, an empty store, an avatar file whose upload
succeeds). Without a cover image the handler throws a `TypeError` while reading
`req.files.coverImage[0]` and creates nothing. With a cover image it creates the
user with username `abc` and then throws a `TypeError` while reading `_id` of
the `null` result of the conflict lookup. In neither case is there a 201
response. -/
theorem registerUser_example_throws :
    registerUser sampleEnv emptyState
        { Req.ofBody exampleBody with files := some ⟨some [⟨"temp/a.png"⟩], none⟩ } =
      (.threw (.typeError "Cannot read properties of undefined (reading '0')"), emptyState) ∧
    registerUser sampleEnv emptyState
        { Req.ofBody exampleBody with
          files := some ⟨some [⟨"temp/a.png"⟩], some [⟨"temp/c.png"⟩]⟩ } =
      (.threw (.typeError "Cannot read properties of null (reading '_id')"),
        { users :=
            [{ _id := 1, username := "abc", email := "a@b.com", fullName := "A B",
               avatar := "https://media.example/temp/a.png",
               coverImage := "https://media.example/temp/c.png",
               password := "hash(pw)", refreshToken := none }],
          unlinked := ["temp/c.png", "temp/a.png"] }) :=
  ⟨rfl, rfl⟩

end MernBackend
